import Mathlib

/-!
Shallow embedding of the Project Resource Service of `src/server.js`
(an Express + Mongoose CRUD backend over a single `Project` collection).

Modelling conventions:
* A persisted document is a `Project`; the store is a `List Project`
  (insertion order = creation order, as in the underlying collection).
* Timestamps are `Nat` (milliseconds since epoch); `now` is passed to the
  handlers that read the clock (`Date.now` defaults, `new Date()` in update).
* `mongoose.connection.readyState` is modelled as a `Bool` argument `conn`.
* A request body (`req.body`, arbitrary JSON) is a `Payload`: each schema
  path is an `Option`, and `extra` carries the non-schema keys, which the
  Mongoose model (strict mode, the default) silently drops.
* Each route handler is a function from `(conn, store, request data)` to
  `Response × List Project` (the response and the store afterwards).
-/

namespace Portfolio

/-- A persisted Project document, with exactly the paths of `projectSchema`
(`src/server.js` lines 44-57) plus the store-assigned `_id`. -/
structure Project where
  id : String
  title : String
  description : String
  longDescription : Option String
  image : String
  tags : List String
  demoLink : Option String
  codeLink : Option String
  featured : Bool
  challenges : Option String
  solutions : Option String
  createdAt : Nat
  updatedAt : Nat
deriving Repr, DecidableEq

/-- A JSON request body: every schema path optionally present, plus the
keys that are not schema paths (`extra`), which Mongoose ignores. -/
structure Payload where
  title : Option String := none
  description : Option String := none
  longDescription : Option String := none
  image : Option String := none
  tags : Option (List String) := none
  demoLink : Option String := none
  codeLink : Option String := none
  featured : Option Bool := none
  challenges : Option String := none
  solutions : Option String := none
  createdAt : Option Nat := none
  updatedAt : Option Nat := none
  extra : List (String × String) := []
deriving Repr, DecidableEq

/-- The JSON body of a response: a single document, an array of documents,
a `\x7bmessage: ...\x7d` object or an `\x7berror: ...\x7d` object. -/
inductive ResBody where
  | project (p : Project)
  | projects (l : List Project)
  | message (s : String)
  | error (s : String)
deriving Repr, DecidableEq

/-- An HTTP response: status code and JSON body. -/
structure Response where
  status : Nat
  body : ResBody
deriving Repr, DecidableEq

/-- `mongoose.Types.ObjectId.isValid`: a string is a valid ObjectId if it is
24 hexadecimal characters, or any 12-character string (12 bytes). -/
def isHexChar (c : Char) : Bool :=
  c.isDigit || (('a' ≤ c) && (c ≤ 'f')) || (('A' ≤ c) && (c ≤ 'F'))

/-- Identifier-format validation used by the `:id` routes
(`mongoose.Types.ObjectId.isValid(projectId)`). -/
def isValidObjectId (s : String) : Bool :=
  (s.length == 24 && s.toList.all isHexChar) || s.length == 12

/-- `new Project(req.body)` (`src/server.js` line 129): keep the schema
paths of the body, drop the rest, apply schema defaults
(`featured: false`, `createdAt`/`updatedAt`: `Date.now`), and let the
store assign the id. Missing required strings are modelled as `""`,
which the `required` validator rejects exactly like absence. -/
def buildProject (genId : String) (now : Nat) (b : Payload) : Project :=
  { id := genId
    title := b.title.getD ""
    description := b.description.getD ""
    longDescription := b.longDescription
    image := b.image.getD ""
    tags := b.tags.getD []
    demoLink := b.demoLink
    codeLink := b.codeLink
    featured := b.featured.getD false
    challenges := b.challenges
    solutions := b.solutions
    createdAt := b.createdAt.getD now
    updatedAt := b.updatedAt.getD now }

/-- The `required: true` validators of `projectSchema`: for a String path,
Mongoose `required` fails when the value is absent or the empty string. -/
def checkRequired (p : Project) : Bool :=
  (p.title != "") && (p.description != "") && (p.image != "")

/-- Stable insertion (descending by `createdAt`) used to model
`.sort(\x7b createdAt: -1 \x7d)`: an element is placed before the first
element with a strictly smaller `createdAt`, after equal ones seen so far,
so documents with equal `createdAt` keep their relative order. -/
def insertDesc (x : Project) : List Project → List Project
  | [] => [x]
  | y :: ys => if y.createdAt ≤ x.createdAt then x :: y :: ys else y :: insertDesc x ys

/-- `Project.find(...).sort(\x7b createdAt: -1 \x7d)`: the collection ordered
by `createdAt` descending (stable in insertion order). -/
def sortByCreatedDesc : List Project → List Project
  | [] => []
  | x :: xs => insertDesc x (sortByCreatedDesc xs)

/-- `GET /api/projects` (`src/server.js` lines 68-79): checks the
connection, then returns every project ordered by `createdAt` descending;
any thrown error is caught and surfaced as 500. -/
def getAllProjects (conn : Bool) (db : List Project) : Response × List Project :=
  if conn = false then
    (⟨500, ResBody.error "Failed to fetch projects"⟩, db)
  else
    (⟨200, ResBody.projects (sortByCreatedDesc db)⟩, db)

/-- `GET /api/projects/featured` (`src/server.js` lines 82-92): queries
`\x7b featured: true \x7d` sorted by `createdAt` descending. Unlike every
other handler, it performs NO `mongoose.connection.readyState` check;
Mongoose buffers the query, which can complete (e.g. after a reconnect),
so the handler is modelled as answering from the store regardless of
`conn`. -/
def getFeaturedProjects (_conn : Bool) (db : List Project) : Response × List Project :=
  (⟨200, ResBody.projects (sortByCreatedDesc (db.filter (fun p => p.featured)))⟩, db)

/-- `GET /api/projects/:id` (`src/server.js` lines 95-121): connection
check, then ObjectId-format check (400), then `findById` (404 when no
match, 200 with the document otherwise). -/
def getProjectById (conn : Bool) (db : List Project) (id : String) :
    Response × List Project :=
  if conn = false then
    (⟨500, ResBody.error "Failed to fetch project"⟩, db)
  else if isValidObjectId id = false then
    (⟨400, ResBody.message "Invalid project ID format"⟩, db)
  else
    match db.find? (fun p => p.id == id) with
    | none => (⟨404, ResBody.message "Project not found"⟩, db)
    | some p => (⟨200, ResBody.project p⟩, db)

/-- `POST /api/projects` (`src/server.js` lines 124-136): connection check,
`new Project(req.body)`, `save()` (which runs the `required` validators);
a `ValidationError` is caught by the generic handler and surfaced as 500
with `\x7b error: "Failed to add project" \x7d`; success appends the
document and returns it with 201. -/
def createProject (conn : Bool) (db : List Project) (genId : String) (now : Nat)
    (body : Payload) : Response × List Project :=
  if conn = false then
    (⟨500, ResBody.error "Failed to add project"⟩, db)
  else
    let doc := buildProject genId now body
    if checkRequired doc then
      (⟨201, ResBody.project doc⟩, db ++ [doc])
    else
      (⟨500, ResBody.error "Failed to add project"⟩, db)

/-- The update document of `PUT /api/projects/:id` is
`\x7b ...req.body, updatedAt: new Date() \x7d` applied as a `$set`: every
path supplied by the body overwrites the stored one (including
`createdAt` if the body carries it), every other path is kept, and
`updatedAt` is always set to `now` (the spread puts it last). -/
def applyUpdate (p : Project) (b : Payload) (now : Nat) : Project :=
  { id := p.id
    title := b.title.getD p.title
    description := b.description.getD p.description
    longDescription := (b.longDescription.map some).getD p.longDescription
    image := b.image.getD p.image
    tags := b.tags.getD p.tags
    demoLink := (b.demoLink.map some).getD p.demoLink
    codeLink := (b.codeLink.map some).getD p.codeLink
    featured := b.featured.getD p.featured
    challenges := (b.challenges.map some).getD p.challenges
    solutions := (b.solutions.map some).getD p.solutions
    createdAt := b.createdAt.getD p.createdAt
    updatedAt := now }

/-- `runValidators: true` on `findByIdAndUpdate`: update validators run on
the paths present in the update document only, so a required path is
checked (non-empty) exactly when the body supplies it. -/
def updateValidatorsOk (b : Payload) : Bool :=
  (match b.title with | some t => t != "" | none => true) &&
  (match b.description with | some d => d != "" | none => true) &&
  (match b.image with | some i => i != "" | none => true)

/-- Replace the first document whose id matches (the single document
`findByIdAndUpdate` touches). -/
def updateFirst (db : List Project) (id : String) (f : Project → Project) :
    List Project :=
  match db with
  | [] => []
  | q :: rest => if q.id == id then f q :: rest else q :: updateFirst rest id f

/-- `PUT /api/projects/:id` (`src/server.js` lines 139-167): connection
check, ObjectId-format check (400), update validators (failure caught as
500), then `findByIdAndUpdate` with `new: true` (404 when no match,
otherwise 200 with the merged document). -/
def updateProjectById (conn : Bool) (db : List Project) (id : String)
    (body : Payload) (now : Nat) : Response × List Project :=
  if conn = false then
    (⟨500, ResBody.error "Failed to update project"⟩, db)
  else if isValidObjectId id = false then
    (⟨400, ResBody.message "Invalid project ID format"⟩, db)
  else if updateValidatorsOk body = false then
    (⟨500, ResBody.error "Failed to update project"⟩, db)
  else
    match db.find? (fun p => p.id == id) with
    | none => (⟨404, ResBody.message "Project not found"⟩, db)
    | some q =>
      (⟨200, ResBody.project (applyUpdate q body now)⟩,
       updateFirst db id (fun r => applyUpdate r body now))

/-- `DELETE /api/projects/:id` (`src/server.js` lines 170-194): connection
check, ObjectId-format check (400), then `findByIdAndDelete` (404 when no
match; otherwise the document is removed and a confirmation message is
returned with 200). -/
def deleteProjectById (conn : Bool) (db : List Project) (id : String) :
    Response × List Project :=
  if conn = false then
    (⟨500, ResBody.error "Failed to delete project"⟩, db)
  else if isValidObjectId id = false then
    (⟨400, ResBody.message "Invalid project ID format"⟩, db)
  else
    match db.find? (fun p => p.id == id) with
    | none => (⟨404, ResBody.message "Project not found"⟩, db)
    | some _ =>
      (⟨200, ResBody.message "Project deleted successfully"⟩,
       db.eraseP (fun p => p.id == id))

/-- A well-formed ObjectId (24 hex characters), used for concrete instances. -/
def sampleId : String := "aaaaaaaaaaaaaaaaaaaaaaaa"

/-- A second well-formed ObjectId, distinct from `sampleId`. -/
def sampleId2 : String := "bbbbbbbbbbbbbbbbbbbbbbbb"

/-- A syntactically invalid id (9 characters, not 12, not 24 hex). -/
def badId : String := "not-an-id"

/-- A concrete persisted document used for concrete instances. -/
def sampleProject : Project :=
  { id := sampleId
    title := "A"
    description := "B"
    longDescription := none
    image := "http://x"
    tags := []
    demoLink := none
    codeLink := none
    featured := false
    challenges := none
    solutions := none
    createdAt := 10
    updatedAt := 10 }

/-- The body `\x7b title: t \x7d`. -/
def titlePayload (t : String) : Payload := { title := some t }

/-- The body `\x7b createdAt: 999 \x7d`. -/
def createdAtPayload : Payload := { createdAt := some 999 }

/-- A valid create body `\x7b title: "A", description: "B", image: "http://x" \x7d`. -/
def validCreatePayload : Payload :=
  { title := some "A", description := some "B", image := some "http://x" }

/-- `validCreatePayload` with an additional key that is not a schema path. -/
def extraPayload : Payload :=
  { title := some "A", description := some "B", image := some "http://x"
    extra := [("hacked", "yes")] }

/-- Descending `createdAt` order on documents. -/
def CreatedDesc (a b : Project) : Prop := b.createdAt ≤ a.createdAt

instance : DecidableRel CreatedDesc := fun a b => Nat.decLe b.createdAt a.createdAt

theorem insertDesc_cons (x y : Project) (ys : List Project) :
    insertDesc x (y :: ys) =
      if y.createdAt ≤ x.createdAt then x :: y :: ys else y :: insertDesc x ys := rfl

theorem insertDesc_perm (x : Project) (l : List Project) :
    (insertDesc x l).Perm (x :: l) := by
  induction l with
  | nil => exact List.Perm.refl _
  | cons y ys ih =>
    rw [insertDesc]
    split
    · exact List.Perm.refl _
    · exact (List.Perm.cons y ih).trans (List.Perm.swap x y ys)

theorem sortByCreatedDesc_perm (l : List Project) :
    (sortByCreatedDesc l).Perm l := by
  induction l with
  | nil => exact List.Perm.refl _
  | cons x xs ih =>
    exact (insertDesc_perm x (sortByCreatedDesc xs)).trans (List.Perm.cons x ih)

theorem mem_insertDesc {a x : Project} {l : List Project} :
    a ∈ insertDesc x l ↔ a = x ∨ a ∈ l := by
  have h := List.Perm.mem_iff (a := a) (insertDesc_perm x l)
  simpa using h

theorem insertDesc_pairwise {x : Project} {l : List Project}
    (h : l.Pairwise CreatedDesc) :
    (insertDesc x l).Pairwise CreatedDesc := by
  induction l with
  | nil => simp [insertDesc]
  | cons y ys ih =>
    rw [List.pairwise_cons] at h
    obtain ⟨hy, hys⟩ := h
    rw [insertDesc]
    split
    · rename_i hle
      refine List.pairwise_cons.2 ⟨?_, List.pairwise_cons.2 ⟨hy, hys⟩⟩
      intro b hb
      rcases List.mem_cons.1 hb with rfl | hb
      · exact hle
      · exact le_trans (hy b hb) hle
    · rename_i hgt
      refine List.pairwise_cons.2 ⟨?_, ih hys⟩
      intro b hb
      rcases mem_insertDesc.1 hb with rfl | hb
      · exact Nat.le_of_not_le hgt
      · exact hy b hb

theorem sortByCreatedDesc_pairwise (l : List Project) :
    (sortByCreatedDesc l).Pairwise CreatedDesc := by
  induction l with
  | nil => simp [sortByCreatedDesc]
  | cons x xs ih => exact insertDesc_pairwise ih

theorem insertDesc_eq_cons {x : Project} {s : List Project}
    (h : ∀ a ∈ s, a.createdAt ≤ x.createdAt) :
    insertDesc x s = x :: s := by
  cases s with
  | nil => rfl
  | cons a as =>
    rw [insertDesc, if_pos (h a (List.mem_cons_self a as))]

theorem filter_insertDesc_neg (q : Project → Bool) {x : Project} (l : List Project)
    (hx : q x = false) :
    (insertDesc x l).filter q = l.filter q := by
  induction l with
  | nil => simp [insertDesc, hx]
  | cons y ys ih =>
    rw [insertDesc]
    split
    · simp [List.filter_cons, hx]
    · simp only [List.filter_cons]
      cases hqy : q y <;> simp [hqy, ih]

theorem filter_insertDesc_pos (q : Project → Bool) {x : Project} {l : List Project}
    (hx : q x = true) (h : l.Pairwise CreatedDesc) :
    (insertDesc x l).filter q = insertDesc x (l.filter q) := by
  induction l with
  | nil => simp [insertDesc, hx]
  | cons y ys ih =>
    rw [List.pairwise_cons] at h
    obtain ⟨hy, hys⟩ := h
    rw [insertDesc]
    split
    · rename_i hle
      rw [List.filter_cons, if_pos hx]
      rw [insertDesc_eq_cons]
      intro a ha
      have ha2 := List.mem_of_mem_filter ha
      rcases List.mem_cons.1 ha2 with rfl | ha3
      · exact hle
      · exact le_trans (hy a ha3) hle
    · rename_i hgt
      rw [List.filter_cons]
      cases hqy : q y with
      | true =>
        simp [List.filter_cons, hqy, insertDesc_cons, hgt, ih hys]
      | false =>
        simp [List.filter_cons, hqy, ih hys]

theorem filter_sortByCreatedDesc (q : Project → Bool) (l : List Project) :
    (sortByCreatedDesc l).filter q = sortByCreatedDesc (l.filter q) := by
  induction l with
  | nil => rfl
  | cons x xs ih =>
    rw [sortByCreatedDesc, List.filter_cons]
    cases hx : q x with
    | true =>
      rw [if_pos rfl, sortByCreatedDesc,
        filter_insertDesc_pos q hx (sortByCreatedDesc_pairwise xs), ih]
    | false =>
      rw [if_neg (by simp [hx]), filter_insertDesc_neg q _ hx, ih]

theorem eraseP_id_not_mem (db : List Project) (id : String)
    (h : (db.map Project.id).Nodup) :
    ∀ p ∈ db.eraseP (fun p => p.id == id), p.id ≠ id := by
  induction db with
  | nil => intro p hp; simp [List.eraseP] at hp
  | cons q rest ih =>
    rw [List.map_cons, List.nodup_cons] at h
    obtain ⟨hq, hrest⟩ := h
    intro p hp
    rw [List.eraseP_cons] at hp
    cases hqid : (q.id == id) with
    | true =>
      rw [hqid, cond_true] at hp
      intro hpid
      apply hq
      rw [List.mem_map]
      exact ⟨p, hp, by rw [hpid, eq_of_beq hqid]⟩
    | false =>
      rw [hqid, cond_false] at hp
      rcases List.mem_cons.1 hp with rfl | hp2
      · exact fun hc => by simp [hc] at hqid
      · exact ih hrest p hp2

/-- C1: a Create whose payload supplies non-empty `title`, `description`
and `image` succeeds with HTTP 201, and the persisted record (appended to
the store and returned in the response body) has exactly those values in
`title`, `description` and `image`; a Create whose payload is missing one
of the three required fields or supplies it empty fails with the
`ValidationError` path, surfaced as HTTP 500, and leaves the store
unchanged. -/
theorem create_required_fields_spec (db : List Project) (genId : String) (now : Nat)
    (body : Payload) :
    (∀ t d i, body.title = some t → body.description = some d → body.image = some i →
      t ≠ "" → d ≠ "" → i ≠ "" →
      createProject true db genId now body =
        (⟨201, ResBody.project (buildProject genId now body)⟩,
         db ++ [buildProject genId now body]) ∧
      (buildProject genId now body).title = t ∧
      (buildProject genId now body).description = d ∧
      (buildProject genId now body).image = i) ∧
    (body.title.getD "" = "" ∨ body.description.getD "" = "" ∨ body.image.getD "" = "" →
      createProject true db genId now body =
        (⟨500, ResBody.error "Failed to add project"⟩, db)) := by
  constructor
  · intro t d i ht hd hi ht0 hd0 hi0
    have hreq : checkRequired (buildProject genId now body) = true := by
      simp [checkRequired, buildProject, ht, hd, hi, ht0, hd0, hi0]
    refine ⟨by simp [createProject, hreq], ?_, ?_, ?_⟩ <;>
      simp [buildProject, ht, hd, hi]
  · intro h
    have hreq : checkRequired (buildProject genId now body) = false := by
      rcases h with h | h | h <;> simp [checkRequired, buildProject, h]
    simp [createProject, hreq]

/-- C1 witness: creating `validCreatePayload` in the empty store returns
201 with matching fields, and creating a body with only a title returns
500. -/
theorem create_required_fields_spec_witness :
    createProject true [] sampleId 5 validCreatePayload =
      (⟨201, ResBody.project (buildProject sampleId 5 validCreatePayload)⟩,
       [] ++ [buildProject sampleId 5 validCreatePayload]) ∧
    (buildProject sampleId 5 validCreatePayload).title = "A" ∧
    createProject true [] sampleId 5 (titlePayload "A") =
      (⟨500, ResBody.error "Failed to add project"⟩, []) := by
  have h1 := (create_required_fields_spec [] sampleId 5 validCreatePayload).1
    "A" "B" "http://x" rfl rfl rfl (by decide) (by decide) (by decide)
  have h2 := (create_required_fields_spec [] sampleId 5 (titlePayload "A")).2
    (Or.inr (Or.inl rfl))
  exact ⟨h1.1, h1.2.1, h2⟩

/-- C2: for Get-by-id (with the store connected): a malformed id yields
HTTP 400; a well-formed id with no matching record yields HTTP 404; a
well-formed id with a matching record yields HTTP 200 with that record.
In every case the store is unchanged. -/
theorem get_by_id_spec (db : List Project) (id : String) :
    (isValidObjectId id = false →
      getProjectById true db id =
        (⟨400, ResBody.message "Invalid project ID format"⟩, db)) ∧
    (isValidObjectId id = true → db.find? (fun p => p.id == id) = none →
      getProjectById true db id =
        (⟨404, ResBody.message "Project not found"⟩, db)) ∧
    (∀ p, isValidObjectId id = true → db.find? (fun q => q.id == id) = some p →
      getProjectById true db id = (⟨200, ResBody.project p⟩, db)) := by
  refine ⟨fun h => ?_, fun hv hn => ?_, fun p hv hp => ?_⟩
  · simp [getProjectById, h]
  · simp [getProjectById, hv, hn]
  · simp [getProjectById, hv, hp]

/-- C2 witness: `badId` gives 400; `sampleId` on the empty store gives
404; `sampleId` on a store holding `sampleProject` gives 200 with it. -/
theorem get_by_id_spec_witness :
    getProjectById true [sampleProject] badId =
      (⟨400, ResBody.message "Invalid project ID format"⟩, [sampleProject]) ∧
    getProjectById true [] sampleId =
      (⟨404, ResBody.message "Project not found"⟩, []) ∧
    getProjectById true [sampleProject] sampleId =
      (⟨200, ResBody.project sampleProject⟩, [sampleProject]) := by
  refine ⟨(get_by_id_spec [sampleProject] badId).1 (by decide),
    (get_by_id_spec [] sampleId).2.1 (by decide) rfl,
    (get_by_id_spec [sampleProject] sampleId).2.2 sampleProject (by decide) (by decide)⟩

/-- C3: an Update supplying only `\x7b title: t \x7d` (t non-empty) on an
existing record returns HTTP 200 with the record whose `title` is `t`,
whose `updatedAt` is the current time (strictly greater than the prior
`updatedAt` whenever the clock advanced), and every other field unchanged;
an Update whose well-formed id matches no record yields HTTP 404. -/
theorem update_title_only_spec (db : List Project) (id : String) (t : String) (now : Nat) :
    (∀ p, isValidObjectId id = true → db.find? (fun q => q.id == id) = some p →
      t ≠ "" → p.updatedAt < now →
      (updateProjectById true db id (titlePayload t) now).1 =
        ⟨200, ResBody.project { p with title := t, updatedAt := now }⟩ ∧
      ({ p with title := t, updatedAt := now } : Project).description = p.description ∧
      ({ p with title := t, updatedAt := now } : Project).image = p.image ∧
      ({ p with title := t, updatedAt := now } : Project).longDescription =
        p.longDescription ∧
      ({ p with title := t, updatedAt := now } : Project).tags = p.tags ∧
      ({ p with title := t, updatedAt := now } : Project).demoLink = p.demoLink ∧
      ({ p with title := t, updatedAt := now } : Project).codeLink = p.codeLink ∧
      ({ p with title := t, updatedAt := now } : Project).featured = p.featured ∧
      ({ p with title := t, updatedAt := now } : Project).challenges = p.challenges ∧
      ({ p with title := t, updatedAt := now } : Project).solutions = p.solutions ∧
      ({ p with title := t, updatedAt := now } : Project).createdAt = p.createdAt ∧
      ({ p with title := t, updatedAt := now } : Project).id = p.id ∧
      p.updatedAt < ({ p with title := t, updatedAt := now } : Project).updatedAt) ∧
    (t ≠ "" → isValidObjectId id = true → db.find? (fun q => q.id == id) = none →
      updateProjectById true db id (titlePayload t) now =
        (⟨404, ResBody.message "Project not found"⟩, db)) := by
  constructor
  · intro p hv hp ht hlt
    have happly : applyUpdate p (titlePayload t) now =
        { p with title := t, updatedAt := now } := by
      simp [applyUpdate, titlePayload]
    have hok : updateValidatorsOk (titlePayload t) = true := by
      simp [updateValidatorsOk, titlePayload, ht]
    refine ⟨?_, rfl, rfl, rfl, rfl, rfl, rfl, rfl, rfl, rfl, rfl, rfl, hlt⟩
    simp [updateProjectById, hv, hok, hp, happly]
  · intro ht hv hn
    simp [updateProjectById, hv, hn, updateValidatorsOk, titlePayload, ht]

/-- C3 witness: updating `sampleProject` with title "X" at time 50 returns
200 with only `title`/`updatedAt` changed; the same update against the
empty store returns 404. -/
theorem update_title_only_spec_witness :
    (updateProjectById true [sampleProject] sampleId (titlePayload "X") 50).1 =
      ⟨200, ResBody.project { sampleProject with title := "X", updatedAt := 50 }⟩ ∧
    updateProjectById true [] sampleId (titlePayload "X") 50 =
      (⟨404, ResBody.message "Project not found"⟩, []) := by
  have h1 := (update_title_only_spec [sampleProject] sampleId "X" 50).1
    sampleProject (by decide) (by decide) (by decide) (by decide)
  have h2 := (update_title_only_spec [] sampleId "X" 50).2 (by decide) (by decide) rfl
  exact ⟨h1.1, h2⟩

/-- C4: with the store connected, a Get, Update or Delete whose path id is
syntactically invalid always yields HTTP 400 (so never 404 and never 500),
whatever the store contains, and the store is unchanged. -/
theorem invalid_id_always_400 (db : List Project) (id : String) (body : Payload)
    (now : Nat) (h : isValidObjectId id = false) :
    getProjectById true db id =
      (⟨400, ResBody.message "Invalid project ID format"⟩, db) ∧
    updateProjectById true db id body now =
      (⟨400, ResBody.message "Invalid project ID format"⟩, db) ∧
    deleteProjectById true db id =
      (⟨400, ResBody.message "Invalid project ID format"⟩, db) := by
  refine ⟨?_, ?_, ?_⟩ <;>
    simp [getProjectById, updateProjectById, deleteProjectById, h]

/-- C4 witness: the three handlers on the id "not-an-id" against a
non-empty store all answer 400. -/
theorem invalid_id_always_400_witness :
    getProjectById true [sampleProject] badId =
      (⟨400, ResBody.message "Invalid project ID format"⟩, [sampleProject]) ∧
    updateProjectById true [sampleProject] badId (titlePayload "X") 7 =
      (⟨400, ResBody.message "Invalid project ID format"⟩, [sampleProject]) ∧
    deleteProjectById true [sampleProject] badId =
      (⟨400, ResBody.message "Invalid project ID format"⟩, [sampleProject]) :=
  invalid_id_always_400 [sampleProject] badId (titlePayload "X") 7 (by decide)

/-- C5 counterexample: the claim "createdAt is never changed after the
record's creation (every Update preserves it), and updatedAt ≥ createdAt
holds at all times" is false on the code: the update document is
`\x7b ...req.body, updatedAt: new Date() \x7d`, so a body carrying
`createdAt` overwrites it. Updating `sampleProject` (createdAt 10) with
`\x7b createdAt: 999 \x7d` at time 50 succeeds with 200 and persists
createdAt 999 ≠ 10, and the persisted record has updatedAt 50 < createdAt
999. -/
theorem update_overwrites_createdAt_counterexample :
    (updateProjectById true [sampleProject] sampleId createdAtPayload 50).1 =
      ⟨200, ResBody.project
        { sampleProject with createdAt := 999, updatedAt := 50 }⟩ ∧
    sampleProject.createdAt = 10 ∧
    ({ sampleProject with createdAt := 999, updatedAt := 50 } : Project).createdAt ≠
      sampleProject.createdAt ∧
    ({ sampleProject with createdAt := 999, updatedAt := 50 } : Project).updatedAt <
      ({ sampleProject with createdAt := 999, updatedAt := 50 } : Project).createdAt := by
  refine ⟨?_, rfl, by decide, by decide⟩
  have hv : isValidObjectId sampleId = true := by decide
  have hfind : [sampleProject].find? (fun p => p.id == sampleId) = some sampleProject := by
    decide
  simp [updateProjectById, hv, hfind, applyUpdate, createdAtPayload, updateValidatorsOk]

/-- C5 (amended): a created document whose body supplies neither timestamp
gets `createdAt = updatedAt = now`; an update whose body does not carry
`createdAt` preserves it, and — provided the clock `now` is not behind the
record's `createdAt` — leaves `updatedAt ≥ createdAt`. (The unamended
claim fails because a body may overwrite `createdAt`, and create accepts
client-supplied timestamps.) -/
theorem timestamps_preserved_amended (genId : String) (now : Nat) (b : Payload)
    (p : Project) :
    (b.createdAt = none → b.updatedAt = none →
      (buildProject genId now b).createdAt = now ∧
      (buildProject genId now b).updatedAt = now) ∧
    (b.createdAt = none →
      (applyUpdate p b now).createdAt = p.createdAt ∧
      (p.createdAt ≤ now →
        (applyUpdate p b now).createdAt ≤ (applyUpdate p b now).updatedAt)) := by
  refine ⟨fun hc hu => ⟨?_, ?_⟩, fun hc => ⟨?_, fun hle => ?_⟩⟩
  · simp [buildProject, hc]
  · simp [buildProject, hu]
  · simp [applyUpdate, hc]
  · simpa [applyUpdate, hc] using hle

/-- C5 witness for the amended statement: a title-only body leaves
timestamps defaulted on create, and preserves `createdAt` on update. -/
theorem timestamps_preserved_amended_witness :
    (buildProject sampleId 50 (titlePayload "X")).createdAt = 50 ∧
    (buildProject sampleId 50 (titlePayload "X")).updatedAt = 50 ∧
    (applyUpdate sampleProject (titlePayload "X") 50).createdAt =
      sampleProject.createdAt ∧
    (applyUpdate sampleProject (titlePayload "X") 50).createdAt ≤
      (applyUpdate sampleProject (titlePayload "X") 50).updatedAt := by
  have h := timestamps_preserved_amended sampleId 50 (titlePayload "X") sampleProject
  exact ⟨(h.1 rfl rfl).1, (h.1 rfl rfl).2, (h.2 rfl).1, (h.2 rfl).2 (by decide)⟩

/-- C6: when the store's ids are unique (the store enforces id
uniqueness) and a Delete succeeds (status 200), the Delete returned the
confirmation message, the record is gone — no document with that id
remains — and a Get on the same id against the resulting store yields
HTTP 404. -/
theorem delete_then_get_spec (db : List Project) (id : String)
    (hnodup : (db.map Project.id).Nodup)
    (hdel : (deleteProjectById true db id).1.status = 200) :
    (deleteProjectById true db id).1 =
      ⟨200, ResBody.message "Project deleted successfully"⟩ ∧
    getProjectById true (deleteProjectById true db id).2 id =
      (⟨404, ResBody.message "Project not found"⟩,
       (deleteProjectById true db id).2) ∧
    ∀ p ∈ (deleteProjectById true db id).2, p.id ≠ id := by
  by_cases hv : isValidObjectId id = true
  · cases hfind : db.find? (fun p => p.id == id) with
    | none =>
      exfalso
      rw [deleteProjectById, if_neg (by simp), if_neg (by simp [hv]), hfind] at hdel
      simp at hdel
    | some q =>
      have hsnd : (deleteProjectById true db id).2 =
          db.eraseP (fun p => p.id == id) := by
        simp [deleteProjectById, hv, hfind]
      have hfst : (deleteProjectById true db id).1 =
          ⟨200, ResBody.message "Project deleted successfully"⟩ := by
        simp [deleteProjectById, hv, hfind]
      have hids := eraseP_id_not_mem db id hnodup
      have hfind2 : (db.eraseP (fun p => p.id == id)).find?
          (fun p => p.id == id) = none := by
        rw [List.find?_eq_none]
        intro x hx
        simpa using hids x hx
      refine ⟨hfst, ?_, ?_⟩
      · rw [hsnd]
        simp [getProjectById, hv, hfind2]
      · rw [hsnd]
        exact hids
  · exfalso
    have hv2 : isValidObjectId id = false := by simpa using hv
    rw [deleteProjectById, if_neg (by simp), if_pos hv2] at hdel
    simp at hdel

/-- C6 witness: deleting `sampleProject` by its id and then fetching the
same id against the resulting store yields 404. -/
theorem delete_then_get_spec_witness :
    (deleteProjectById true [sampleProject] sampleId).1 =
      ⟨200, ResBody.message "Project deleted successfully"⟩ ∧
    getProjectById true (deleteProjectById true [sampleProject] sampleId).2 sampleId =
      (⟨404, ResBody.message "Project not found"⟩,
       (deleteProjectById true [sampleProject] sampleId).2) := by
  have h := delete_then_get_spec [sampleProject] sampleId (by decide) (by decide)
  exact ⟨h.1, h.2.1⟩

/-- C7: List Featured answers with exactly the records of List whose
`featured` field is true, in the same relative order — its response body
is the List result filtered on `featured` (for any connection state, since
the featured handler never consults the connection). -/
theorem featured_filter_of_list (conn : Bool) (db : List Project) :
    getFeaturedProjects conn db =
      (⟨200, ResBody.projects
        ((sortByCreatedDesc db).filter (fun p => p.featured))⟩, db) ∧
    (getAllProjects true db).1 = ⟨200, ResBody.projects (sortByCreatedDesc db)⟩ := by
  refine ⟨?_, rfl⟩
  simp [getFeaturedProjects, filter_sortByCreatedDesc]

/-- C8: List (with the store connected) answers 200 with every project of
the collection — a permutation of the store — ordered by `createdAt`
descending, with no truncation and no change to the store. -/
theorem list_all_sorted_spec (db : List Project) :
    getAllProjects true db = (⟨200, ResBody.projects (sortByCreatedDesc db)⟩, db) ∧
    List.Perm (sortByCreatedDesc db) db ∧
    (sortByCreatedDesc db).Pairwise CreatedDesc :=
  ⟨rfl, sortByCreatedDesc_perm db, sortByCreatedDesc_pairwise db⟩

/-- C9 counterexample: the claim "every operation first validates that the
store connection is available and fails with HTTP 500 when it is not" is
false on the code: the `GET /api/projects/featured` handler performs no
`readyState` check, so with the connection down it still answers 200
(Mongoose buffers its query), while e.g. List answers 500. -/
theorem featured_skips_connection_check_counterexample :
    (getFeaturedProjects false [sampleProject]).1.status = 200 ∧
    (getAllProjects false [sampleProject]).1.status = 500 :=
  ⟨rfl, rfl⟩

/-- C9 (amended): every operation except List Featured first checks the
store connection and fails with HTTP 500 (leaving the store unchanged)
when it is unavailable; List Featured performs no such check and answers
200 from the store regardless. -/
theorem connection_check_amended (db : List Project) (id genId : String)
    (body : Payload) (now : Nat) :
    getAllProjects false db =
      (⟨500, ResBody.error "Failed to fetch projects"⟩, db) ∧
    getProjectById false db id =
      (⟨500, ResBody.error "Failed to fetch project"⟩, db) ∧
    createProject false db genId now body =
      (⟨500, ResBody.error "Failed to add project"⟩, db) ∧
    updateProjectById false db id body now =
      (⟨500, ResBody.error "Failed to update project"⟩, db) ∧
    deleteProjectById false db id =
      (⟨500, ResBody.error "Failed to delete project"⟩, db) ∧
    (getFeaturedProjects false db).1.status = 200 :=
  ⟨rfl, rfl, rfl, rfl, rfl, rfl⟩

/-- C10: Create ignores payload keys that are not schema paths (the
operation behaves identically with `extra` stripped, and the persisted
`Project` carries only schema fields by construction); `featured`
defaults to `false` and `createdAt`/`updatedAt` default to the creation
time when the payload does not supply them. -/
theorem create_ignores_unknown_keys (db : List Project) (genId : String) (now : Nat)
    (body : Payload) :
    createProject true db genId now body =
      createProject true db genId now { body with extra := [] } ∧
    buildProject genId now body = buildProject genId now { body with extra := [] } ∧
    (body.featured = none → (buildProject genId now body).featured = false) ∧
    (body.createdAt = none → (buildProject genId now body).createdAt = now) ∧
    (body.updatedAt = none → (buildProject genId now body).updatedAt = now) := by
  refine ⟨rfl, rfl, fun h => ?_, fun h => ?_, fun h => ?_⟩ <;>
    simp [buildProject, h]

/-- C10 witness: creating `extraPayload` (which carries a non-schema key)
behaves exactly like creating it with the key stripped, and the defaults
apply. -/
theorem create_ignores_unknown_keys_witness :
    createProject true [] sampleId 5 extraPayload =
      createProject true [] sampleId 5 { extraPayload with extra := [] } ∧
    (buildProject sampleId 5 extraPayload).featured = false ∧
    (buildProject sampleId 5 extraPayload).createdAt = 5 ∧
    (buildProject sampleId 5 extraPayload).updatedAt = 5 := by
  have h := create_ignores_unknown_keys [] sampleId 5 extraPayload
  exact ⟨h.1, h.2.2.1 rfl, h.2.2.2.1 rfl, h.2.2.2.2 rfl⟩

end Portfolio
